import Mathlib

/-!
# Verification of the pomodoro-api two-factor authentication subsystem

Shallow embedding of the credential-verification and two-factor
challenge/response code of the repository, and proofs of the testable
properties stated in its design document.

Embedded source files:
* `routes/auth.js` (converged iteration, with the Redis-backed challenge
  store): the `/login`, `/verify-2fa` and `/resend-2fa-code` handlers,
* `routes/auth.js` (earlier iteration with the in-process `Map` store):
  the `/login` handler, which can return a token directly,
* `services/redisService.js`: the `set` / `get` / `delete` primitives with
  TTL semantics,
* `models/User.js`: the user record and `comparePassword`,
* `utils/auth.js` and `utils/token.js`: JWT issue and verify.

Conventions of the embedding:
* times are `Nat` seconds (the legacy in-process store uses milliseconds
  in the source; its expiry arithmetic is embedded with its own clock),
* `bcrypt.compare(candidate, hash)` is abstracted as string equality of
  the candidate with the stored secret (the hash is a faithful image of
  the secret for the purposes of these proofs),
* a JWT signature is modelled as the pair (signing secret, signed claims);
  a signature verifies exactly when it was produced with the same secret
  over the same claims,
* the fallible external effects (the Redis `set` command and the outbound
  e-mail send) are driven by explicit `Bool` oracles `redisOk` / `emailOk`;
  a failed effect performs no write and the handler takes its catch branch,
  exactly as in the source.
-/

namespace Pomodoro

/-- A registered account, from `models/User.js` (`userSchema`): unique email,
secret, two-factor flags, active flag, last-login timestamp.  `id` stands for
the Mongo `_id` (already stringified, as the routes use it). -/
structure User where
  id : String
  name : String
  email : String
  password : String
  is2FAEnabled : Bool
  hasBeenPromptedFor2FA : Bool
  isActive : Bool
  lastLogin : Option Nat
deriving Repr, DecidableEq

/-- The persistent user store, `User.findOne({ email })` / `user.save()`. -/
abbrev UserDb := List User

/-- Lookup `User.findOne({ email })`. -/
def findByEmail (db : UserDb) (email : String) : Option User :=
  db.find? (fun u => u.email == email)

/-- Save `user.save()`: replace the record with the same email. -/
def saveUser (db : UserDb) (u : User) : UserDb :=
  db.map (fun v => if v.email == u.email then u else v)

/-- Compare `userSchema.methods.comparePassword`: `bcrypt.compare` abstracted as
equality of the candidate with the stored secret. -/
def comparePassword (u : User) (candidate : String) : Bool :=
  candidate == u.password

/-- The JSON value stored under the `2fa:` key by the converged handlers:
`{ code, userId, createdAt, failedAttempts }`, plus the `lastAttempt`
stamp added by the failed-verify path. -/
structure ChallengeData where
  code : String
  userId : String
  createdAt : Nat
  failedAttempts : Nat
  lastAttempt : Option Nat
deriving Repr, DecidableEq

/-- A Redis entry: the stored value together with its absolute expiry time
(`setex key ttl value` stores until `now + ttl`). -/
structure RedisEntry where
  value : ChallengeData
  expiresAt : Nat
deriving Repr, DecidableEq

/-- The ephemeral store of `services/redisService.js`, keys to entries. -/
abbrev RedisStore := String → Option RedisEntry

/-- Write `redisService.set(key, value, ttl)` (`setex`): full-record replace with
a fresh TTL. -/
def redisSet (st : RedisStore) (key : String) (v : ChallengeData)
    (now ttl : Nat) : RedisStore :=
  fun k => if k == key then some ⟨v, now + ttl⟩ else st k

/-- Read `redisService.get(key)`: Redis auto-expires keys, so an entry past its
expiry reads as absent. -/
def redisGet (st : RedisStore) (now : Nat) (key : String) :
    Option ChallengeData :=
  match st key with
  | some e => if now < e.expiresAt then some e.value else none
  | none => none

/-- Delete `redisService.delete(key)` (`del`). -/
def redisDelete (st : RedisStore) (key : String) : RedisStore :=
  fun k => if k == key then none else st k

/-- Key helper `get2FAKey` from `routes/auth.js`. -/
def get2FAKey (email : String) : String := "2fa:" ++ email

/-! ## JWT model (`utils/auth.js`, `utils/token.js`) -/

/-- The claims `jwt.sign` embeds for this app: subject user id, issued-at,
expiry, issuer and audience. -/
structure JwtClaims where
  userId : String
  iat : Nat
  exp : Nat
  iss : String
  aud : String
deriving Repr, DecidableEq

/-- A signed token: claims plus a signature.  The signature is modelled as
the (secret, claims) pair actually signed, so it verifies against a secret
exactly when produced with that secret over those claims. -/
structure Jwt where
  claims : JwtClaims
  sig : String × JwtClaims
deriving Repr, DecidableEq

/-- Signing, `jwt.sign(claims, secret)`. -/
def jwtSign (secret : String) (c : JwtClaims) : Jwt := ⟨c, (secret, c)⟩

/-- Failure kinds of `jwt.verify`: `JsonWebTokenError` (bad signature),
`TokenExpiredError`, and `JsonWebTokenError` for an issuer/audience claim
mismatch.  Signature is checked before expiry, expiry before the
issuer/audience claims, as in the jsonwebtoken library. -/
inductive JwtError where
  | badSignature
  | expired
  | claimMismatch
deriving Repr, DecidableEq

/-- Verification, `jwt.verify(token, secret, { issuer?, audience? })` at time `now`. -/
def jwtVerify (secret : String) (now : Nat) (checkIss checkAud : Option String)
    (t : Jwt) : Except JwtError JwtClaims :=
  if t.sig ≠ (secret, t.claims) then .error .badSignature
  else if t.claims.exp ≤ now then .error .expired
  else if (match checkIss with | some i => i != t.claims.iss | none => false) then
    .error .claimMismatch
  else if (match checkAud with | some a => a != t.claims.aud | none => false) then
    .error .claimMismatch
  else .ok t.claims

/-- Token issue `generateToken(userId)` from `utils/auth.js`: signs
`{ userId }` with issuer `reflective-pomodoro` and audience
`reflective-pomodoro-users`, expiring `expiresIn` after `now`. -/
def generateToken (secret : String) (now expiresIn : Nat) (userId : String) :
    Jwt :=
  jwtSign secret
    ⟨userId, now, now + expiresIn, "reflective-pomodoro",
      "reflective-pomodoro-users"⟩

/-- Token check `verifyToken(token)` from `utils/auth.js`: any verification failure is
caught and re-thrown as the single generic `Invalid token` error. -/
def authVerifyToken (secret : String) (now : Nat) (t : Jwt) :
    Except String JwtClaims :=
  match jwtVerify secret now (some "reflective-pomodoro")
      (some "reflective-pomodoro-users") t with
  | .ok c => .ok c
  | .error _ => .error "Invalid token"

/-- The distinct failure kinds surfaced by `TokenUtils.verifyToken` in
`utils/token.js`. -/
inductive TokenUtilsError where
  | tokenExpired
  | invalidToken
deriving Repr, DecidableEq

/-- Token check `TokenUtils.verifyToken(token)` from `utils/token.js`: maps
`TokenExpiredError` to `Token expired` and `JsonWebTokenError` to
`Invalid token`, surfacing the two kinds distinctly.  No issuer/audience
options are passed at this call site. -/
def tokenUtilsVerifyToken (secret : String) (now : Nat) (t : Jwt) :
    Except TokenUtilsError JwtClaims :=
  match jwtVerify secret now none none t with
  | .ok c => .ok c
  | .error .expired => .error .tokenExpired
  | .error .badSignature => .error .invalidToken
  | .error .claimMismatch => .error .invalidToken

/-! ## Converged `/login` handler (Redis-backed iteration of `routes/auth.js`) -/

/-- The tagged outcomes of the two `/login` handler iterations.  One result
type is shared so that "never returns a token" is a meaningful statement:
`tokenGranted` is only ever produced by the earlier (legacy) iteration. -/
inductive LoginResult where
  /-- Status 401 `Invalid email or password`, user-not-found return site. -/
  | invalidEmailUser
  /-- Status 401 `Invalid email or password`, wrong-password return site. -/
  | invalidPassword
  /-- Status 401 `Account is deactivated`. -/
  | accountDeactivated
  /-- Status 200 `{ requires2FA: true, email, method: 'email' }` with the given
  response message. -/
  | requires2FA (email message : String)
  /-- Status 500 catch-branch response with the given message. -/
  | serverError (message : String)
  /-- Status 200 with a session token in the payload; `setupPrompt` is true on the
  legacy handler's `requires2FASetup` return site. -/
  | tokenGranted (token : Jwt) (setupPrompt : Bool)
deriving Repr, DecidableEq

/-- The state a `/login` call leaves behind, with its HTTP-level outcome. -/
structure LoginOutcome where
  result : LoginResult
  db : UserDb
  store : RedisStore

/-- The converged `/login` handler: credential check, then mandatory
two-factor.  `newCode` is the value drawn by `generateVerificationCode()`;
`redisOk` / `emailOk` drive the `redisService.set` and `send2FACode`
effects (a failed set writes nothing; a failed send happens after the set,
so the challenge is already stored when the catch branch answers 500).
The welcome e-mail of the auto-enable path has its errors swallowed and no
state effect, so it does not appear. -/
def login (db : UserDb) (store : RedisStore) (now : Nat)
    (email password newCode : String) (redisOk emailOk : Bool) :
    LoginOutcome :=
  match findByEmail db email with
  | none => ⟨.invalidEmailUser, db, store⟩
  | some user =>
    if ¬ comparePassword user password then ⟨.invalidPassword, db, store⟩
    else if ¬ user.isActive then ⟨.accountDeactivated, db, store⟩
    else if user.is2FAEnabled then
      if redisOk then
        let store' := redisSet store (get2FAKey user.email)
          ⟨newCode, user.id, now, 0, none⟩ now 600
        if emailOk then
          ⟨.requires2FA user.email "Verification code sent to your email",
            db, store'⟩
        else
          ⟨.serverError "Unable to process 2FA request. Please try again.",
            db, store'⟩
      else
        ⟨.serverError "Unable to process 2FA request. Please try again.",
          db, store⟩
    else
      let user' := { user with is2FAEnabled := true,
                               hasBeenPromptedFor2FA := true }
      let db' := saveUser db user'
      if redisOk then
        let store' := redisSet store (get2FAKey user.email)
          ⟨newCode, user.id, now, 0, none⟩ now 600
        if emailOk then
          ⟨.requires2FA user.email
            "Two-factor authentication has been enabled for your account. Verification code sent to your email.",
            db', store'⟩
        else
          ⟨.serverError "Failed to send verification code. Please try again.",
            db', store'⟩
      else
        ⟨.serverError "Failed to send verification code. Please try again.",
          db', store⟩

/-- The HTTP status and message each `LoginResult` return site produces,
read off the `res.status(...).json({ message })` literals. -/
def loginHttpResponse : LoginResult → Nat × String
  | .invalidEmailUser => (401, "Invalid email or password")
  | .invalidPassword => (401, "Invalid email or password")
  | .accountDeactivated => (401, "Account is deactivated")
  | .requires2FA _ message => (200, message)
  | .serverError message => (500, message)
  | .tokenGranted _ _ => (200, "Login successful")

/-! ## `/verify-2fa` handler (converged iteration) -/

/-- Outcomes of `/verify-2fa`. -/
inductive VerifyResult where
  /-- Status 400 `Email and verification code are required`. -/
  | missingFields
  /-- Status 404 `User not found`. -/
  | userNotFound
  /-- Status 400 `2FA is not enabled for this account`. -/
  | twoFANotEnabled
  /-- Status 400 `No verification code found. Please request a new code.` -/
  | challengeNotFound
  /-- Status 400 `Too many failed attempts. Please request a new code.` -/
  | lockedOut
  /-- Status 401 `Invalid verification code`. -/
  | invalidCode
  /-- Status 200 `2FA verification successful`, with the minted session token. -/
  | success (token : Jwt)
deriving Repr, DecidableEq

/-- The state a `/verify-2fa` call leaves behind, with its outcome. -/
structure VerifyOutcome where
  result : VerifyResult
  db : UserDb
  store : RedisStore

/-- The write the mismatch branch performs: a fresh full-record `set` of the
previously-read data with the counter recomputed client-side
(`failedAttempts: failedAttempts + 1`), a `lastAttempt` stamp, and a new
600-second TTL.  Factored out because it is the read-modify-write half of
the handler's failed-attempt tracking. -/
def trackFailedAttempt (store : RedisStore) (now : Nat) (email : String)
    (data : ChallengeData) : RedisStore :=
  redisSet store (get2FAKey email)
    { data with failedAttempts := data.failedAttempts + 1,
                lastAttempt := some now } now 600

/-- The converged `/verify-2fa` handler: field presence, user lookup,
enabled check, challenge lookup, lockout check (before the code
comparison), string comparison of codes, and on success delete + lastLogin
update + token mint.  `secret` / `expiresIn` are the JWT configuration. -/
def verify2FA (secret : String) (expiresIn : Nat) (db : UserDb)
    (store : RedisStore) (now : Nat) (email code : String) : VerifyOutcome :=
  if email = "" ∨ code = "" then ⟨.missingFields, db, store⟩
  else
    match findByEmail db email with
    | none => ⟨.userNotFound, db, store⟩
    | some user =>
      if ¬ user.is2FAEnabled then ⟨.twoFANotEnabled, db, store⟩
      else
        match redisGet store now (get2FAKey email) with
        | none => ⟨.challengeNotFound, db, store⟩
        | some data =>
          if 3 ≤ data.failedAttempts then
            ⟨.lockedOut, db, redisDelete store (get2FAKey email)⟩
          else if data.code ≠ code then
            ⟨.invalidCode, db, trackFailedAttempt store now email data⟩
          else
            let user' := { user with lastLogin := some now }
            ⟨.success (generateToken secret now expiresIn user.id),
              saveUser db user', redisDelete store (get2FAKey email)⟩

/-! ## `/resend-2fa-code` handler (converged iteration) -/

/-- Outcomes of `/resend-2fa-code`. -/
inductive ResendResult where
  /-- Status 400 `Email is required`. -/
  | missingEmail
  /-- Status 404 `User not found`. -/
  | userNotFound
  /-- Status 400 `2FA is not enabled for this account`. -/
  | twoFANotEnabled
  /-- Status 200 `New verification code sent to your email`. -/
  | codeSent
  /-- Status 500 `Failed to send verification code. Please try again.` -/
  | serverError
deriving Repr, DecidableEq

/-- The state a `/resend-2fa-code` call leaves behind, with its outcome. -/
structure ResendOutcome where
  result : ResendResult
  store : RedisStore

/-- The converged `/resend-2fa-code` handler: eligibility checks, then a
fresh code is drawn and stored with `failedAttempts: 0` and a 600-second
TTL, overwriting whatever was there; the e-mail is sent after the store
write, so a delivery failure answers 500 with the new challenge already in
place. -/
def resend2FACode (db : UserDb) (store : RedisStore) (now : Nat)
    (email newCode : String) (redisOk emailOk : Bool) : ResendOutcome :=
  if email = "" then ⟨.missingEmail, store⟩
  else
    match findByEmail db email with
    | none => ⟨.userNotFound, store⟩
    | some user =>
      if ¬ user.is2FAEnabled then ⟨.twoFANotEnabled, store⟩
      else if redisOk then
        let store' := redisSet store (get2FAKey user.email)
          ⟨newCode, user.id, now, 0, none⟩ now 600
        if emailOk then ⟨.codeSent, store'⟩ else ⟨.serverError, store'⟩
      else ⟨.serverError, store⟩

/-! ## Earlier `/login` handler (in-process `Map` iteration of
`routes/auth.js`, the one mounted by `api/index.js`) -/

/-- A value of the in-process `verificationCodes` map:
`{ code, expiresAt: Date.now() + 600000, userId }` (milliseconds). -/
structure LegacyChallenge where
  code : String
  expiresAtMs : Nat
  userId : String
  failedAttempts : Option Nat
deriving Repr, DecidableEq

/-- The in-process `verificationCodes` map. -/
abbrev LegacyStore := String → Option LegacyChallenge

/-- The state the legacy `/login` call leaves behind, with its outcome. -/
structure LegacyLoginOutcome where
  result : LoginResult
  db : UserDb
  vstore : LegacyStore

/-- The earlier `/login` handler: same credential checks, but a user
without two-factor enabled receives a session token directly — with a
`requires2FASetup` prompt when never prompted, or a plain login (with a
`lastLogin` save) when already prompted.  For an enabled user the map is
written before the e-mail send, so a send failure answers 500 with the
challenge already stored.  `nowMs` is the millisecond clock of this
iteration; `now` the second clock used for the JWT. -/
def loginLegacy (secret : String) (expiresIn : Nat) (db : UserDb)
    (vstore : LegacyStore) (now nowMs : Nat)
    (email password newCode : String) (emailOk : Bool) :
    LegacyLoginOutcome :=
  match findByEmail db email with
  | none => ⟨.invalidEmailUser, db, vstore⟩
  | some user =>
    if ¬ comparePassword user password then ⟨.invalidPassword, db, vstore⟩
    else if ¬ user.isActive then ⟨.accountDeactivated, db, vstore⟩
    else if user.is2FAEnabled then
      let vstore' : LegacyStore := fun k =>
        if k == user.email then
          some ⟨newCode, nowMs + 600000, user.id, none⟩
        else vstore k
      if emailOk then
        ⟨.requires2FA user.email "Verification code sent to your email",
          db, vstore'⟩
      else
        ⟨.serverError "Failed to send verification code. Please try again.",
          db, vstore'⟩
    else if ¬ user.hasBeenPromptedFor2FA then
      ⟨.tokenGranted (generateToken secret now expiresIn user.id) true,
        db, vstore⟩
    else
      let user' := { user with lastLogin := some now }
      ⟨.tokenGranted (generateToken secret now expiresIn user.id) false,
        saveUser db user', vstore⟩

/-! ## Concrete fixtures for witnesses and counterexamples -/

/-- A registered, active account with two-factor already enabled. -/
def alice : User :=
  ⟨"u1", "Alice", "alice@example.com", "Secret123", true, true, true, none⟩

/-- A legacy account: active, two-factor not enabled, never prompted. -/
def bob : User :=
  ⟨"u2", "Bob", "bob@example.com", "Hunter22", false, false, true, none⟩

/-- A user store holding both fixtures. -/
def db0 : UserDb := [alice, bob]

/-- The empty challenge store. -/
def store0 : RedisStore := fun _ => none

/-- A store holding a freshly issued challenge for `alice` with code
`123456`, issued at time 0 (expiry 600), no failed attempts. -/
def storeFresh : RedisStore :=
  redisSet store0 (get2FAKey "alice@example.com")
    ⟨"123456", "u1", 0, 0, none⟩ 0 600

/-- Scenario: first wrong-code verify against the fresh challenge. -/
def scenC_o1 : VerifyOutcome :=
  verify2FA "sek" 86400 db0 storeFresh 1 "alice@example.com" "000000"

/-- Scenario: second wrong-code verify. -/
def scenC_o2 : VerifyOutcome :=
  verify2FA "sek" 86400 scenC_o1.db scenC_o1.store 2 "alice@example.com"
    "000000"

/-- Scenario: third wrong-code verify. -/
def scenC_o3 : VerifyOutcome :=
  verify2FA "sek" 86400 scenC_o2.db scenC_o2.store 3 "alice@example.com"
    "000000"

/-- Scenario: fourth verify, now with the exactly correct code. -/
def scenC_o4 : VerifyOutcome :=
  verify2FA "sek" 86400 scenC_o3.db scenC_o3.store 4 "alice@example.com"
    "123456"

/-- Scenario: fifth verify, again with the correct code. -/
def scenC_o5 : VerifyOutcome :=
  verify2FA "sek" 86400 scenC_o4.db scenC_o4.store 5 "alice@example.com"
    "123456"

/-- C3 counterexample: on the concrete scenario — fresh challenge with code
`123456`, three wrong verifies with `000000`, then the correct code — the
fourth call fails with `lockedOut` (HTTP 400 `Too many failed attempts`),
not with `challengeNotFound` as the claim states. -/
theorem C3_fourth_call_is_lockout_not_notfound :
    scenC_o1.result = .invalidCode ∧
    scenC_o2.result = .invalidCode ∧
    scenC_o3.result = .invalidCode ∧
    scenC_o4.result = .lockedOut ∧
    VerifyResult.lockedOut ≠ VerifyResult.challengeNotFound := by
  refine ⟨rfl, rfl, rfl, rfl, ?_⟩
  decide

/-- C3 (amended): issue a challenge with code `123456`, verify with
`000000` three times, then with `123456`: the results are `InvalidCode,
InvalidCode, InvalidCode`, then `LockedOut` on the 4th call (which deletes
the record), and only a 5th call fails with `ChallengeNotFound`. -/
theorem C3_scenario_lockout_then_notfound :
    scenC_o1.result = .invalidCode ∧
    scenC_o2.result = .invalidCode ∧
    scenC_o3.result = .invalidCode ∧
    scenC_o4.result = .lockedOut ∧
    scenC_o5.result = .challengeNotFound :=
  ⟨rfl, rfl, rfl, rfl, rfl⟩

/-- C2: a stored, live challenge whose `failedAttempts` is at least 3 makes
`verify-2fa` delete the challenge and fail with `LockedOut`, for any
submitted code — the exactly correct one included — because the
attempt-limit check precedes the code comparison. -/
theorem C2_lockout_precedes_code_check
    (secret : String) (expiresIn : Nat) (db : UserDb) (store : RedisStore)
    (now : Nat) (email code : String) (user : User) (data : ChallengeData)
    (hne : email ≠ "") (hnc : code ≠ "")
    (hu : findByEmail db email = some user)
    (he : user.is2FAEnabled = true)
    (hd : redisGet store now (get2FAKey email) = some data)
    (hfa : 3 ≤ data.failedAttempts) :
    (verify2FA secret expiresIn db store now email code).result =
      .lockedOut ∧
    ∀ now', redisGet
      (verify2FA secret expiresIn db store now email code).store now'
      (get2FAKey email) = none := by
  have hor : ¬ (email = "" ∨ code = "") := by
    rintro (h | h)
    · exact hne h
    · exact hnc h
  unfold verify2FA
  rw [if_neg hor, hu]
  simp only [he, not_true_eq_false, if_false, Bool.not_true]
  rw [hd]
  simp only [if_pos hfa]
  refine ⟨by trivial, fun now' => ?_⟩
  simp [redisGet, redisDelete]

/-- C2 witness: a locked-out record (`failedAttempts = 3`) for `alice`,
resubmitted with exactly the stored code `123456`, fails with `LockedOut`
and the record is gone. -/
theorem C2_lockout_precedes_code_check_witness :
    (verify2FA "sek" 86400 db0
      (redisSet store0 (get2FAKey "alice@example.com")
        ⟨"123456", "u1", 0, 3, some 3⟩ 0 600) 10 "alice@example.com"
      "123456").result = .lockedOut ∧
    redisGet
      (verify2FA "sek" 86400 db0
        (redisSet store0 (get2FAKey "alice@example.com")
          ⟨"123456", "u1", 0, 3, some 3⟩ 0 600) 10 "alice@example.com"
        "123456").store 11 (get2FAKey "alice@example.com") = none := by
  have h := C2_lockout_precedes_code_check "sek" 86400 db0
    (redisSet store0 (get2FAKey "alice@example.com")
      ⟨"123456", "u1", 0, 3, some 3⟩ 0 600) 10 "alice@example.com"
    "123456" alice ⟨"123456", "u1", 0, 3, some 3⟩ (by decide) (by decide)
    rfl rfl rfl (by decide)
  exact ⟨h.1, h.2 11⟩

/-- C5 counterexample: against the challenge issued at time 0 (stored
expiry 600 = issuance + 600), a wrong-code verify at time 100 leaves the
record with expiry 700 — the TTL is restarted, extending the challenge's
lifetime past issuance + 600 — and with a changed `lastAttempt` field in
addition to the incremented counter. -/
theorem C5_failed_attempt_extends_ttl :
    (verify2FA "sek" 86400 db0 storeFresh 100 "alice@example.com"
        "999999").store (get2FAKey "alice@example.com") =
      some ⟨⟨"123456", "u1", 0, 1, some 100⟩, 700⟩ ∧
    (700 : Nat) ≠ 600 ∧
    some (100 : Nat) ≠ (none : Option Nat) := by
  refine ⟨rfl, by decide, by decide⟩

/-- C5 (amended): a wrong-code verify against a live challenge rewrites the
record keeping `code`, `userId` and `createdAt` unchanged and incrementing
`failedAttempts` by exactly 1, but it also stamps `lastAttempt` with the
attempt time and resets the entry's TTL to 600 seconds from the attempt
(stored expiry becomes `now + 600`), so a failed attempt extends the
challenge's remaining lifetime. -/
theorem C5_mismatch_frame_effect
    (secret : String) (expiresIn : Nat) (db : UserDb) (store : RedisStore)
    (now : Nat) (email code : String) (user : User) (data : ChallengeData)
    (hne : email ≠ "") (hnc : code ≠ "")
    (hu : findByEmail db email = some user)
    (he : user.is2FAEnabled = true)
    (hd : redisGet store now (get2FAKey email) = some data)
    (hlt : data.failedAttempts < 3)
    (hmm : data.code ≠ code) :
    (verify2FA secret expiresIn db store now email code).result =
      .invalidCode ∧
    (verify2FA secret expiresIn db store now email code).store
        (get2FAKey email) =
      some ⟨{ data with failedAttempts := data.failedAttempts + 1,
                        lastAttempt := some now }, now + 600⟩ ∧
    (verify2FA secret expiresIn db store now email code).db = db := by
  have hor : ¬ (email = "" ∨ code = "") := by
    rintro (h | h)
    · exact hne h
    · exact hnc h
  have hfa : ¬ 3 ≤ data.failedAttempts := by omega
  unfold verify2FA
  rw [if_neg hor, hu]
  simp only [he, not_true_eq_false, if_false, Bool.not_true]
  rw [hd]
  simp only [if_neg hfa, if_pos hmm]
  refine ⟨by trivial, ?_, by trivial⟩
  simp [trackFailedAttempt, redisSet]

/-- C5 witness: instantiates the frame-effect theorem on the concrete fresh
challenge at time 100 with wrong code `999999`. -/
theorem C5_mismatch_frame_effect_witness :
    (verify2FA "sek" 86400 db0 storeFresh 100 "alice@example.com"
      "999999").result = .invalidCode ∧
    (verify2FA "sek" 86400 db0 storeFresh 100 "alice@example.com"
        "999999").store (get2FAKey "alice@example.com") =
      some ⟨{ (⟨"123456", "u1", 0, 0, none⟩ : ChallengeData) with
                failedAttempts := 0 + 1, lastAttempt := some 100 }, 100 + 600⟩ ∧
    (verify2FA "sek" 86400 db0 storeFresh 100 "alice@example.com"
      "999999").db = db0 :=
  C5_mismatch_frame_effect "sek" 86400 db0 storeFresh 100
    "alice@example.com" "999999" alice ⟨"123456", "u1", 0, 0, none⟩
    (by decide) (by decide) rfl rfl rfl (by decide) (by decide)

/-- C4: the failed-attempt update the `/verify-2fa` handler performs is the
read-modify-write `trackFailedAttempt` — a full `set` of previously-read
data with `failedAttempts + 1` computed client-side, not an atomic
store-side increment — and two racing wrong-code attempts that both read
the same record before either writes leave the counter at 1 instead of 2:
one update is lost. -/
theorem C4_counter_update_is_read_modify_write :
    redisGet storeFresh 1 (get2FAKey "alice@example.com") =
      some ⟨"123456", "u1", 0, 0, none⟩ ∧
    (verify2FA "sek" 86400 db0 storeFresh 1 "alice@example.com"
        "000000").store =
      trackFailedAttempt storeFresh 1 "alice@example.com"
        ⟨"123456", "u1", 0, 0, none⟩ ∧
    redisGet
      (trackFailedAttempt
        (trackFailedAttempt storeFresh 1 "alice@example.com"
          ⟨"123456", "u1", 0, 0, none⟩)
        1 "alice@example.com" ⟨"123456", "u1", 0, 0, none⟩)
      1 (get2FAKey "alice@example.com") =
      some ⟨"123456", "u1", 0, 1, some 1⟩ ∧
    (1 : Nat) ≠ 2 := by
  refine ⟨rfl, rfl, rfl, by decide⟩

/-- Saving `user.save()` of a record keeping the same email: a later
`findOne({ email })` that used to find the old record now finds the saved
one. -/
theorem findByEmail_saveUser (db : UserDb) (email : String) (u u' : User)
    (hu : findByEmail db email = some u) (he : u'.email = u.email) :
    findByEmail (saveUser db u') email = some u' := by
  induction db with
  | nil => simp [findByEmail] at hu
  | cons v t ih =>
    unfold findByEmail at hu ⊢
    unfold saveUser
    rw [List.map_cons]
    by_cases hv : (v.email == email) = true
    · rw [List.find?_cons_of_pos (p := fun x : User => x.email == email) t hv] at hu
      have huv : v = u := by injection hu
      have hvu' : (v.email == u'.email) = true := by
        rw [he, ← huv]; exact beq_self_eq_true _
      rw [if_pos hvu']
      refine List.find?_cons_of_pos _ ?_
      show (u'.email == email) = true
      rw [he, ← huv]; exact hv
    · rw [List.find?_cons_of_neg (p := fun x : User => x.email == email) t hv] at hu
      have hne : ¬ (v.email == u'.email) = true := by
        intro hcontra
        have h1 : v.email = u'.email := eq_of_beq hcontra
        have h2 : u.email = email :=
          eq_of_beq (List.find?_some (p := fun x : User => x.email == email) hu)
        apply hv
        rw [h1, he, h2]; exact beq_self_eq_true email
      rw [if_neg hne]
      refine Eq.trans (List.find?_cons_of_neg
        (p := fun x : User => x.email == email) _ hv) ?_
      exact ih hu

/-- C6: a successful `verify-2fa` call (submitted code matches a live,
not-locked-out challenge) mints a session token, deletes the challenge
record, and any later `verify-2fa` call for the same email with the same
code — at any time, under any JWT configuration — fails with
`ChallengeNotFound`: a code verified once can never be verified again. -/
theorem C6_one_time_code
    (secret : String) (expiresIn : Nat) (db : UserDb) (store : RedisStore)
    (now : Nat) (email code : String) (user : User) (data : ChallengeData)
    (hne : email ≠ "") (hnc : code ≠ "")
    (hu : findByEmail db email = some user)
    (he : user.is2FAEnabled = true)
    (hd : redisGet store now (get2FAKey email) = some data)
    (hlt : data.failedAttempts < 3)
    (hcode : data.code = code) :
    (verify2FA secret expiresIn db store now email code).result =
      .success (generateToken secret now expiresIn user.id) ∧
    (∀ now', redisGet
      (verify2FA secret expiresIn db store now email code).store now'
      (get2FAKey email) = none) ∧
    (∀ now' secret' expiresIn',
      (verify2FA secret' expiresIn'
        (verify2FA secret expiresIn db store now email code).db
        (verify2FA secret expiresIn db store now email code).store
        now' email code).result = .challengeNotFound) := by
  have hor : ¬ (email = "" ∨ code = "") := by
    rintro (h | h)
    · exact hne h
    · exact hnc h
  have hfa : ¬ 3 ≤ data.failedAttempts := by omega
  have hcc : ¬ data.code ≠ code := by simp [hcode]
  have hrun : verify2FA secret expiresIn db store now email code =
      ⟨.success (generateToken secret now expiresIn user.id),
        saveUser db { user with lastLogin := some now },
        redisDelete store (get2FAKey email)⟩ := by
    unfold verify2FA
    rw [if_neg hor, hu]
    simp only [he, not_true_eq_false, if_false, Bool.not_true]
    rw [hd]
    simp only [if_neg hfa, if_neg hcc]
  rw [hrun]
  refine ⟨rfl, fun now' => by simp [redisGet, redisDelete],
    fun now' secret' expiresIn' => ?_⟩
  show (verify2FA secret' expiresIn'
    (saveUser db { user with lastLogin := some now })
    (redisDelete store (get2FAKey email)) now' email code).result =
    .challengeNotFound
  unfold verify2FA
  rw [if_neg hor]
  rw [findByEmail_saveUser db email user { user with lastLogin := some now }
    hu rfl]
  simp only [he, not_true_eq_false, if_false, Bool.not_true]
  have hg : redisGet (redisDelete store (get2FAKey email)) now'
      (get2FAKey email) = none := by
    simp [redisGet, redisDelete]
  rw [hg]

/-- C6 witness: `alice` verifies the fresh challenge's code `123456` at
time 5 — the call succeeds with a token, the record is gone at time 6, and
re-verifying the same code at time 6 fails with `ChallengeNotFound`. -/
theorem C6_one_time_code_witness :
    (verify2FA "sek" 86400 db0 storeFresh 5 "alice@example.com"
      "123456").result =
      .success (generateToken "sek" 5 86400 alice.id) ∧
    redisGet (verify2FA "sek" 86400 db0 storeFresh 5 "alice@example.com"
      "123456").store 6 (get2FAKey "alice@example.com") = none ∧
    (verify2FA "sek" 86400
      (verify2FA "sek" 86400 db0 storeFresh 5 "alice@example.com"
        "123456").db
      (verify2FA "sek" 86400 db0 storeFresh 5 "alice@example.com"
        "123456").store
      6 "alice@example.com" "123456").result = .challengeNotFound := by
  have h := C6_one_time_code "sek" 86400 db0 storeFresh 5
    "alice@example.com" "123456" alice ⟨"123456", "u1", 0, 0, none⟩
    (by decide) (by decide) rfl rfl rfl (by decide) rfl
  exact ⟨h.1, h.2.1 6, h.2.2 6 "sek" 86400⟩

/-- C7: for an existing identity with two-factor enabled, a successful
store write on `resend-2fa-code` leaves the challenge key holding a full
fresh record — the newly drawn code, `failedAttempts = 0`, no
`lastAttempt`, and a full 600-second TTL from the resend time — for
*every* prior store state (no live challenge is required, and any pending
or locked-out record is entirely replaced); when delivery also succeeds
the call answers `codeSent`. -/
theorem C7_resend_fully_replaces
    (db : UserDb) (store : RedisStore) (now : Nat) (email newCode : String)
    (user : User) (emailOk : Bool)
    (hne : email ≠ "")
    (hu : findByEmail db email = some user)
    (he : user.is2FAEnabled = true) :
    (resend2FACode db store now email newCode true emailOk).store
      (get2FAKey user.email) =
      some ⟨⟨newCode, user.id, now, 0, none⟩, now + 600⟩ ∧
    (emailOk = true →
      (resend2FACode db store now email newCode true emailOk).result =
        .codeSent) := by
  unfold resend2FACode
  rw [if_neg hne, hu]
  simp only [he, not_true_eq_false, if_false, Bool.not_true, if_true]
  constructor
  · cases emailOk <;> simp [redisSet]
  · intro hok
    subst hok
    rfl

/-- C7 witness: resending for `alice` at time 50 over a locked-out record
(`failedAttempts = 3`) leaves a fresh record with the new code `654321`,
zero failed attempts and expiry 650, and answers `codeSent`. -/
theorem C7_resend_fully_replaces_witness :
    (resend2FACode db0
      (redisSet store0 (get2FAKey "alice@example.com")
        ⟨"123456", "u1", 0, 3, some 3⟩ 0 600)
      50 "alice@example.com" "654321" true true).store
      (get2FAKey alice.email) =
      some ⟨⟨"654321", alice.id, 50, 0, none⟩, 50 + 600⟩ ∧
    ((true : Bool) = true →
      (resend2FACode db0
        (redisSet store0 (get2FAKey "alice@example.com")
          ⟨"123456", "u1", 0, 3, some 3⟩ 0 600)
        50 "alice@example.com" "654321" true true).result = .codeSent) :=
  C7_resend_fully_replaces db0
    (redisSet store0 (get2FAKey "alice@example.com")
      ⟨"123456", "u1", 0, 3, some 3⟩ 0 600)
    50 "alice@example.com" "654321" alice true (by decide) rfl rfl

/-- C9: a login with a wrong secret for an existing, active identity
answers `invalidPassword`, leaves the user store and the challenge store
untouched, and its HTTP response — 401 `Invalid email or password` — is
byte-identical to the response produced when the identity does not exist
at all. -/
theorem C9_wrong_password_no_write
    (db : UserDb) (store : RedisStore) (now : Nat)
    (email password newCode : String) (redisOk emailOk : Bool) (user : User)
    (hu : findByEmail db email = some user)
    (_hactive : user.isActive = true)
    (hpw : comparePassword user password = false) :
    (login db store now email password newCode redisOk emailOk).result =
      .invalidPassword ∧
    (login db store now email password newCode redisOk emailOk).db = db ∧
    (login db store now email password newCode redisOk emailOk).store =
      store ∧
    loginHttpResponse .invalidPassword =
      loginHttpResponse .invalidEmailUser := by
  unfold login
  rw [hu]
  simp [hpw, loginHttpResponse]

/-- C9 witness: `alice` exists and is active; logging in with `WrongPass`
answers `invalidPassword` with no store write, matching the
absent-identity response. -/
theorem C9_wrong_password_no_write_witness :
    (login db0 store0 7 "alice@example.com" "WrongPass" "111111" true
      true).result = .invalidPassword ∧
    (login db0 store0 7 "alice@example.com" "WrongPass" "111111" true
      true).db = db0 ∧
    (login db0 store0 7 "alice@example.com" "WrongPass" "111111" true
      true).store = store0 ∧
    loginHttpResponse .invalidPassword =
      loginHttpResponse .invalidEmailUser :=
  C9_wrong_password_no_write db0 store0 7 "alice@example.com" "WrongPass"
    "111111" true true alice rfl rfl (by decide)

/-- Whether a login outcome is the pending-challenge (`requires2FA`)
response. -/
def isPendingChallenge : LoginResult → Bool
  | .requires2FA _ _ => true
  | _ => false

/-- Whether a login outcome carries a session token in its payload. -/
def isTokenGrant : LoginResult → Bool
  | .tokenGranted _ _ => true
  | _ => false

/-- C8 counterexample: `bob` is a legacy identity (two-factor off); he logs
in with the correct password while the challenge-store write fails.  The
login answers 500, yet his persisted record now has both two-factor flags
set and no challenge exists — the enrollment flags and the first challenge
are not one atomic step, refuting "the login fails with neither effect". -/
theorem C8_store_failure_leaves_flags_set :
    (login db0 store0 20 "bob@example.com" "Hunter22" "222222" false
      true).result =
      .serverError "Failed to send verification code. Please try again." ∧
    findByEmail (login db0 store0 20 "bob@example.com" "Hunter22" "222222"
      false true).db "bob@example.com" =
      some { bob with is2FAEnabled := true,
                      hasBeenPromptedFor2FA := true } ∧
    (login db0 store0 20 "bob@example.com" "Hunter22" "222222" false
      true).store (get2FAKey "bob@example.com") = none :=
  ⟨rfl, rfl, rfl⟩

/-- C8 (amended): for a legacy identity logging in with correct
credentials, the handler always persists the two enrollment flags first;
if the challenge-store write then succeeds a fresh challenge exists (and,
when delivery also succeeds, the call answers the pending-challenge
response), while if it fails the call answers 500 with the flags already
persisted and no challenge stored.  In no case is a session token
granted. -/
theorem C8_legacy_enrollment_flags_first
    (db : UserDb) (store : RedisStore) (now : Nat)
    (email password newCode : String) (redisOk emailOk : Bool) (user : User)
    (hu : findByEmail db email = some user)
    (hpw : comparePassword user password = true)
    (hactive : user.isActive = true)
    (hnot2fa : user.is2FAEnabled = false) :
    (login db store now email password newCode redisOk emailOk).db =
      saveUser db { user with is2FAEnabled := true,
                              hasBeenPromptedFor2FA := true } ∧
    (redisOk = true →
      (login db store now email password newCode redisOk emailOk).store
        (get2FAKey user.email) =
        some ⟨⟨newCode, user.id, now, 0, none⟩, now + 600⟩) ∧
    (redisOk = false →
      (login db store now email password newCode redisOk emailOk).store =
        store ∧
      (login db store now email password newCode redisOk emailOk).result =
        .serverError
          "Failed to send verification code. Please try again.") ∧
    isTokenGrant
      (login db store now email password newCode redisOk emailOk).result =
      false ∧
    (redisOk = true → emailOk = true →
      isPendingChallenge
        (login db store now email password newCode redisOk
          emailOk).result = true) := by
  unfold login
  rw [hu]
  cases redisOk <;> cases emailOk <;>
    simp [hpw, hactive, hnot2fa, redisSet, isTokenGrant, isPendingChallenge]

/-- C8 witness: instantiates the flags-first theorem for `bob` with a
successful store write and delivery. -/
theorem C8_legacy_enrollment_flags_first_witness :
    (login db0 store0 21 "bob@example.com" "Hunter22" "222222" true
      true).db =
      saveUser db0 { bob with is2FAEnabled := true,
                              hasBeenPromptedFor2FA := true } ∧
    ((true : Bool) = true →
      (login db0 store0 21 "bob@example.com" "Hunter22" "222222" true
        true).store (get2FAKey bob.email) =
        some ⟨⟨"222222", bob.id, 21, 0, none⟩, 21 + 600⟩) ∧
    ((true : Bool) = false →
      (login db0 store0 21 "bob@example.com" "Hunter22" "222222" true
        true).store = store0 ∧
      (login db0 store0 21 "bob@example.com" "Hunter22" "222222" true
        true).result =
        .serverError
          "Failed to send verification code. Please try again.") ∧
    isTokenGrant
      (login db0 store0 21 "bob@example.com" "Hunter22" "222222" true
        true).result = false ∧
    ((true : Bool) = true → (true : Bool) = true →
      isPendingChallenge
        (login db0 store0 21 "bob@example.com" "Hunter22" "222222" true
          true).result = true) :=
  C8_legacy_enrollment_flags_first db0 store0 21 "bob@example.com"
    "Hunter22" "222222" true true bob rfl (by decide) rfl rfl

/-- C1 counterexample: in the earlier `/login` handler (the iteration
mounted by `api/index.js`), the legacy identity `bob` — correct password,
active account, two-factor not enabled — receives a session token
directly, and no pending-challenge outcome, refuting the claim for the
program's login as a whole. -/
theorem C1_legacy_login_grants_token :
    (loginLegacy "sek" 86400 db0 (fun _ => none) 30 30000
      "bob@example.com" "Hunter22" "333333" true).result =
      .tokenGranted (generateToken "sek" 30 86400 "u2") true ∧
    isTokenGrant (loginLegacy "sek" 86400 db0 (fun _ => none) 30 30000
      "bob@example.com" "Hunter22" "333333" true).result = true ∧
    isPendingChallenge (loginLegacy "sek" 86400 db0 (fun _ => none) 30
      30000 "bob@example.com" "Hunter22" "333333" true).result = false :=
  ⟨rfl, rfl, rfl⟩

/-- C1 (amended): in the converged `/login` handler, every login with the
correct secret and an active account yields no session token under any
store/delivery outcome — for identities with two-factor already enabled
and for legacy identities auto-enrolled during the call alike — and, when
issuance succeeds, the result is the pending-challenge outcome. -/
theorem C1_login_is_challenge_never_token
    (db : UserDb) (store : RedisStore) (now : Nat)
    (email password newCode : String) (user : User)
    (hu : findByEmail db email = some user)
    (hpw : comparePassword user password = true)
    (hactive : user.isActive = true) :
    (∀ redisOk emailOk, isTokenGrant
      (login db store now email password newCode redisOk emailOk).result =
      false) ∧
    isPendingChallenge
      (login db store now email password newCode true true).result =
      true := by
  constructor
  · intro redisOk emailOk
    unfold login
    rw [hu]
    cases h2 : user.is2FAEnabled <;> cases redisOk <;> cases emailOk <;>
      simp [hpw, hactive, h2, isTokenGrant]
  · unfold login
    rw [hu]
    cases h2 : user.is2FAEnabled <;>
      simp [hpw, hactive, h2, isPendingChallenge]

/-- C1 witness: `alice` (two-factor already enabled) logs in with her
correct password; the result is the pending-challenge outcome and carries
no token. -/
theorem C1_login_is_challenge_never_token_witness :
    isTokenGrant (login db0 store0 40 "alice@example.com" "Secret123"
      "777777" true true).result = false ∧
    isPendingChallenge (login db0 store0 40 "alice@example.com"
      "Secret123" "777777" true true).result = true := by
  have h := C1_login_is_challenge_never_token db0 store0 40
    "alice@example.com" "Secret123" "777777" alice rfl (by decide) rfl
  exact ⟨h.1 true true, h.2⟩

/-- A token signed with the server secret whose embedded expiry (10) is in
the past at the observation time 20. -/
def expiredTok : Jwt :=
  jwtSign "sek"
    ⟨"u1", 0, 10, "reflective-pomodoro", "reflective-pomodoro-users"⟩

/-- A token with well-formed, unexpired claims whose signature was produced
with a different secret. -/
def forgedTok : Jwt :=
  ⟨⟨"u1", 0, 1000, "reflective-pomodoro", "reflective-pomodoro-users"⟩,
    ("other",
      ⟨"u1", 0, 1000, "reflective-pomodoro", "reflective-pomodoro-users"⟩)⟩

/-- C10 counterexample: at the interface of `verifyToken` in
`utils/auth.js` — the verifier the auth middleware uses — an expired token
and a forged-signature token produce the *same* generic `Invalid token`
error: the two failure kinds are collapsed, not surfaced distinctly. -/
theorem C10_auth_verifier_collapses_failures :
    authVerifyToken "sek" 20 expiredTok = .error "Invalid token" ∧
    authVerifyToken "sek" 20 forgedTok = .error "Invalid token" ∧
    authVerifyToken "sek" 20 expiredTok = authVerifyToken "sek" 20
      forgedTok :=
  ⟨rfl, rfl, rfl⟩

/-- C10 (amended): `TokenUtils.verifyToken` in `utils/token.js` surfaces
the two failure kinds distinctly — a correctly signed token past its
embedded expiry fails with `tokenExpired`, a token whose signature does not
verify fails with `invalidToken`, and the two error values differ — whereas
`verifyToken` in `utils/auth.js` collapses every failure into the single
generic `Invalid token` error. -/
theorem C10_tokenutils_failures_distinct (secret : String) (now : Nat)
    (t : Jwt) :
    (t.sig = (secret, t.claims) → t.claims.exp ≤ now →
      tokenUtilsVerifyToken secret now t = .error .tokenExpired) ∧
    (t.sig ≠ (secret, t.claims) →
      tokenUtilsVerifyToken secret now t = .error .invalidToken) ∧
    TokenUtilsError.tokenExpired ≠ TokenUtilsError.invalidToken ∧
    (t.sig = (secret, t.claims) → t.claims.exp ≤ now →
      authVerifyToken secret now t = .error "Invalid token") := by
  refine ⟨?_, ?_, by decide, ?_⟩
  · intro hsig hexp
    unfold tokenUtilsVerifyToken jwtVerify
    rw [if_neg (by simp [hsig]), if_pos hexp]
  · intro hsig
    unfold tokenUtilsVerifyToken jwtVerify
    rw [if_pos hsig]
  · intro hsig hexp
    unfold authVerifyToken jwtVerify
    rw [if_neg (by simp [hsig]), if_pos hexp]

/-- C10 witness: the expired and forged fixture tokens at time 20 under
secret `sek`: the token-utils verifier answers `tokenExpired` and
`invalidToken` respectively, and the auth-middleware verifier answers the
generic error on the expired one. -/
theorem C10_tokenutils_failures_distinct_witness :
    tokenUtilsVerifyToken "sek" 20 expiredTok = .error .tokenExpired ∧
    tokenUtilsVerifyToken "sek" 20 forgedTok = .error .invalidToken ∧
    authVerifyToken "sek" 20 expiredTok = .error "Invalid token" := by
  have h1 := C10_tokenutils_failures_distinct "sek" 20 expiredTok
  have h2 := C10_tokenutils_failures_distinct "sek" 20 forgedTok
  exact ⟨h1.1 rfl (by decide), h2.2.1 (by decide),
    h1.2.2.2 rfl (by decide)⟩

end Pomodoro
